import Mathlib

/-!
Verification development for the hh-apply-cli authenticated sync client.

The Python sources under `src/hhcli/` are shallowly embedded: pure
functions become Lean functions, SQLite tables become lists of row
structures, datetimes become integers (`Time`), Python dicts that are
accessed by string key become association lists, and network responses
are passed in explicitly.  All definitions are executable.
-/

/-- Instants (`datetime`); embedded as integers, e.g. seconds since an epoch.
Ordering and subtraction are all the code uses. -/
abbrev Time := Int

/-! ## Python string primitives

The string methods the sources use (`.strip()`, `.lower()`, `.split()`,
`.startswith`, `in`) are modelled on the character list underlying a
`String`, so that every definition reduces by computation. -/

/-- Python `str.lower()` on one character; ASCII case mapping, which is
all the status codes this program lowers need. -/
def pyLowerChar (c : Char) : Char :=
  if 'A' ≤ c ∧ c ≤ 'Z' then Char.ofNat (c.toNat + 32) else c

/-- Python `str.lower()`. -/
def pyLower (s : String) : String :=
  String.mk (s.data.map pyLowerChar)

/-- Python `str.strip()`: drop leading and trailing whitespace. -/
def pyStrip (s : String) : String :=
  String.mk (((s.data.dropWhile Char.isWhitespace).reverse.dropWhile
    Char.isWhitespace).reverse)

/-- Python `str.split()` (no separator): maximal runs of
non-whitespace characters, in order. -/
def pySplitWsAux : List Char → List Char → List (List Char)
  | [], acc => if acc.isEmpty then [] else [acc.reverse]
  | c :: rest, acc =>
    if c.isWhitespace then
      if acc.isEmpty then pySplitWsAux rest []
      else acc.reverse :: pySplitWsAux rest []
    else pySplitWsAux rest (c :: acc)

/-- Python `" ".join(s.split())`: collapse whitespace runs to single
spaces and trim the ends. -/
def pyCollapseWs (s : String) : String :=
  String.mk (List.intercalate [' '] (pySplitWsAux s.data []))

/-- Python `s.startswith(p)`. -/
def pyStartsWith (s p : String) : Bool :=
  p.data.isPrefixOf s.data

/-! ## Status classifier (`src/hhcli/database.py`) -/

/-- Model of `database._normalize_status`: `str(value or "").strip().lower()`.
Absent (`None`) values become the empty string. -/
def normalize_status (value : Option String) : String :=
  pyLower (pyStrip (value.getD ""))

/-- Modelled from the spec: `DELIVERED_STATUS_CODES` is imported by
`database.py` from `hhcli.constants` but that definition is not in the
sources; the spec describes a fixed delivered vocabulary
"e.g. applied/response/responded/invited/offer". -/
def DELIVERED_STATUS_CODES : List String :=
  ["applied", "response", "responded", "invited", "offer"]

/-- Modelled from the spec: `FAILED_STATUS_CODES` is imported by
`database.py` from `hhcli.constants` but that definition is not in the
sources; the spec describes a disjoint failed vocabulary containing
outcomes such as "rejected"/"failed". -/
def FAILED_STATUS_CODES : List String :=
  ["rejected", "failed", "discard"]

/-- The prefix vocabulary hard-coded in `database._status_was_delivered`
(line 60): `("applied", "response", "responded", "invited", "offer")`. -/
def delivered_status_prefixes : List String :=
  ["applied", "response", "responded", "invited", "offer"]

/-- Model of `database._status_was_delivered` (lines 52-63): normalize; empty is
not delivered; the failed vocabulary wins; then exact membership in the
delivered vocabulary or a prefix match. -/
def status_was_delivered (status : Option String) : Bool :=
  let code := normalize_status status
  if code = "" then false
  else if FAILED_STATUS_CODES.contains code then false
  else if DELIVERED_STATUS_CODES.contains code then true
  else delivered_status_prefixes.any (fun p => pyStartsWith code p)

/-! ## History store rows and the sync upsert (`database.py`) -/

/-- One row of the `negotiation_history` table.  `reason` and the
title/employer columns are nullable in the schema. -/
structure HistoryRow where
  vacancyId : String
  profileName : String
  resumeId : String
  resumeTitle : String
  vacancyTitle : Option String
  employerName : Option String
  status : Option String
  reason : Option String
  wasDelivered : Bool
  appliedAt : Time
  deriving Repr, DecidableEq

/-- The `employer` sub-object of a raw negotiation item's vacancy. -/
structure EmployerInfo where
  name : Option String
  deriving Repr, DecidableEq

/-- The `vacancy` sub-object of a raw negotiation item. -/
structure VacancyInfo where
  id : Option String
  name : Option String
  employer : Option EmployerInfo
  deriving Repr, DecidableEq

/-- The `resume` sub-object of a raw negotiation item. -/
structure ResumeInfo where
  id : Option String
  title : Option String
  deriving Repr, DecidableEq

/-- The `state` sub-object of a raw negotiation item. -/
structure StateInfo where
  id : Option String
  code : Option String
  name : Option String
  deriving Repr, DecidableEq

/-- One raw item of a `GET /negotiations` page.  `updatedAt` is the
parsed `item['updated_at']` timestamp. -/
structure NegotiationItem where
  vacancy : Option VacancyInfo
  resume : Option ResumeInfo
  state : Option StateInfo
  status : Option String
  updatedAt : Time
  deriving Repr, DecidableEq

/-- Python truthiness of an optional string: `None` and `""` are falsy. -/
def strTruthy : Option String → Bool
  | none => false
  | some s => s ≠ ""

/-- Python `a or b` on optional strings (used for `state.get("id") or
state.get("code")` chains): the first truthy operand, else `b`. -/
def pyOrStr (a b : Option String) : Option String :=
  if strTruthy a then a else b

/-- The canonical status computed by `upsert_negotiation_history`
(lines 933-940): prefer `state.id or state.code`; fall back on
`state.name or item.status or "unknown"`; strip and lower-case. -/
def canonicalStatus (item : NegotiationItem) : String :=
  let stateId :=
    match item.state with
    | some st => pyOrStr st.id st.code
    | none => none
  let raw :=
    if strTruthy stateId then stateId.getD ""
    else
      match item.state with
      | some st => (pyOrStr (pyOrStr st.name item.status) (some "unknown")).getD "unknown"
      | none => (pyOrStr item.status (some "unknown")).getD "unknown"
  pyLower (pyStrip raw)

/-- The upsert of one negotiation item performed inside
`database.upsert_negotiation_history` (lines 928-967).  Items without a
truthy `vacancy.id` are skipped.  On key conflict
`(vacancy_id, resume_id)` every field except `reason` (and the key) is
overwritten; otherwise a fresh row with `reason = NULL` is inserted. -/
def upsertNegotiationItem (profileName : String) (history : List HistoryRow)
    (item : NegotiationItem) : List HistoryRow :=
  match item.vacancy with
  | none => history
  | some vacancy =>
    if strTruthy vacancy.id then
      let vacancyId := vacancy.id.getD ""
      let resumeId := pyStrip (match item.resume with
        | some r => r.id.getD ""
        | none => "")
      let resumeTitle := pyStrip (match item.resume with
        | some r => r.title.getD ""
        | none => "")
      let statusValue := canonicalStatus item
      let delivered := status_was_delivered (some statusValue)
      let employerName :=
        match vacancy.employer with
        | some e => e.name
        | none => none
      if history.any (fun r => r.vacancyId == vacancyId && r.resumeId == resumeId) then
        history.map (fun r =>
          if r.vacancyId == vacancyId && r.resumeId == resumeId then
            { r with
              profileName := profileName
              resumeTitle := resumeTitle
              vacancyTitle := vacancy.name
              employerName := employerName
              status := some statusValue
              wasDelivered := delivered
              appliedAt := item.updatedAt }
          else r)
      else
        history ++ [{ vacancyId := vacancyId
                      profileName := profileName
                      resumeId := resumeId
                      resumeTitle := resumeTitle
                      vacancyTitle := vacancy.name
                      employerName := employerName
                      status := some statusValue
                      reason := none
                      wasDelivered := delivered
                      appliedAt := item.updatedAt }]
    else history

/-- Model of `database.upsert_negotiation_history` (lines 924-968): upsert every
item of the batch in order (a no-op on the empty batch). -/
def upsert_negotiation_history (negotiations : List NegotiationItem)
    (profileName : String) (history : List HistoryRow) : List HistoryRow :=
  if negotiations.isEmpty then history
  else negotiations.foldl (fun h item => upsertNegotiationItem profileName h item) history

/-! ## UI-side delivered classifier (`src/hhcli/ui/tui.py`) -/

/-- Model of `tui._normalize` (lines 114-117): `" ".join(str(text).lower().split())`
with `None`/empty mapped to `""`: lower-case and collapse whitespace runs. -/
def tuiNormalize (text : Option String) : String :=
  if strTruthy text then pyCollapseWs (pyLower (text.getD ""))
  else ""

/-- Model of `tui.DELIVERED_MARKERS` (line 120). -/
def DELIVERED_MARKERS : List String :=
  ["отклик", "доставл", "прочитан", "applied"]

/-- Model of `tui.FAILED_MARKERS` (line 121). -/
def FAILED_MARKERS : List String :=
  ["failed"]

/-- Whether `needle` occurs as a contiguous sublist of `hay`
(Python's `needle in hay` on strings). -/
def listHasSub (needle : List Char) : List Char → Bool
  | [] => needle.isEmpty
  | c :: rest => needle.isPrefixOf (c :: rest) || listHasSub needle rest

/-- Python `m in s` substring test. -/
def strHasSub (s m : String) : Bool :=
  listHasSub m.toList s.toList

/-- Model of `tui._is_delivered` (lines 124-126): some delivered marker occurs in
the normalized status. -/
def tui_is_delivered (status : Option String) : Bool :=
  DELIVERED_MARKERS.any (fun m => strHasSub (tuiNormalize status) m)

/-- Model of `tui._is_failed` (lines 129-131): some failed marker occurs in the
normalized status. -/
def tui_is_failed (status : Option String) : Bool :=
  FAILED_MARKERS.any (fun m => strHasSub (tuiNormalize status) m)

/-- Per-vacancy aggregation record built by `tui._collect_delivered`
(its `processed_vacancies[vid]` dict). -/
structure VacAgg where
  lastStatus : Option String
  lastUpdatedAt : Time
  hasBeenDelivered : Bool
  title : Option String
  employer : Option String
  deriving Repr, DecidableEq

/-- One step of the first loop of `tui._collect_delivered`
(lines 145-167): insert a fresh aggregate for an unseen vacancy id, else
take the later status and OR the delivered flag. -/
def collectStep (acc : List (String × VacAgg)) (h : HistoryRow) :
    List (String × VacAgg) :=
  let vid := h.vacancyId
  if vid = "" then acc
  else if acc.any (fun p => p.1 == vid) then
    acc.map (fun p =>
      if p.1 == vid then
        let a := p.2
        let a :=
          if h.appliedAt > a.lastUpdatedAt then
            { a with lastStatus := h.status, lastUpdatedAt := h.appliedAt }
          else a
        let a :=
          if !a.hasBeenDelivered && tui_is_delivered h.status then
            { a with hasBeenDelivered := true }
          else a
        (p.1, a)
      else p)
  else
    acc ++ [(vid, { lastStatus := h.status
                    lastUpdatedAt := h.appliedAt
                    hasBeenDelivered := tui_is_delivered h.status
                    title := h.vacancyTitle
                    employer := h.employerName })]

/-- Python `key.strip('|')`: drop leading and trailing pipe characters. -/
def stripPipes (s : String) : String :=
  String.mk (((s.toList.dropWhile (fun c => c = '|')).reverse.dropWhile
    (fun c => c = '|')).reverse)

/-- Append an element to a list unless present (Python `set.add`;
only membership in the results is ever consumed). -/
def setAdd (l : List String) (x : String) : List String :=
  if l.contains x then l else l ++ [x]

/-- Model of `tui._collect_delivered` (lines 134-190): returns the set of
delivered vacancy ids, the normalized `title|employer` keys and the
normalized employer names of the delivered vacancies.  A vacancy counts
as delivered when some historical status was delivered and the latest
status is not failed. -/
def collect_delivered (history : List HistoryRow) :
    List String × List String × List String :=
  let processed := history.foldl collectStep []
  processed.foldl (fun res p =>
    let (ids, keys, employers) := res
    let a := p.2
    if a.hasBeenDelivered && !tui_is_failed a.lastStatus then
      let title := tuiNormalize a.title
      let employer := tuiNormalize a.employer
      let key := title ++ "|" ++ employer
      let keys := if stripPipes key ≠ "" then setAdd keys key else keys
      let employers := if employer ≠ "" then setAdd employers employer else employers
      (setAdd ids p.1, keys, employers)
    else res) ([], [], [])

/-! ## Sync engine (`src/hhcli/client.py`, `sync_negotiation_history`)
and the watermark store (`database.get/set_last_sync_timestamp`) -/

/-- The persistent state the sync engine touches: the
`negotiation_history` table and the `app_state` rows holding the
per-profile sync watermark (values round-trip through `isoformat`, so
they are kept as `Time`). -/
structure SyncDb where
  history : List HistoryRow
  appState : List (String × Time)
  deriving Repr, DecidableEq

/-- Model of `database.get_last_sync_timestamp` (lines 913-918): read the
`last_negotiation_sync_<profile>` key. -/
def get_last_sync_timestamp (db : SyncDb) (profileName : String) : Option Time :=
  (db.appState.find? (fun p => p.1 == "last_negotiation_sync_" ++ profileName)).map
    (fun p => p.2)

/-- The `app_state` upsert of `database._upsert_app_state`. -/
def upsertAppState (st : List (String × Time)) (key : String) (value : Time) :
    List (String × Time) :=
  if st.any (fun p => p.1 == key) then
    st.map (fun p => if p.1 == key then (p.1, value) else p)
  else st ++ [(key, value)]

/-- Model of `database.set_last_sync_timestamp` (lines 920-922). -/
def set_last_sync_timestamp (st : List (String × Time)) (profileName : String)
    (timestamp : Time) : List (String × Time) :=
  upsertAppState st ("last_negotiation_sync_" ++ profileName) timestamp

/-- One page of the paginated `GET /negotiations` response: its `items`
and the total page count `pages`. -/
structure NegotiationsPage where
  items : List NegotiationItem
  pages : Nat
  deriving Repr, DecidableEq

/-- The page-walk of `sync_negotiation_history` (client.py lines
203-215): fetch pages `0, 1, ...` accumulating items; an `HTTPError` on
any page aborts the walk; stop once `page >= pages - 1`.  `fetch` takes
the `date_from` filter and the page number; `fuel` bounds the loop
(`none` = fuel exhausted, which a real run never hits since each step
consumes a page). -/
def fetchAllPages (fetch : Option Time → Nat → Except Unit NegotiationsPage)
    (dateFrom : Option Time) :
    Nat → List NegotiationItem → Nat → Option (Except Unit (List NegotiationItem))
  | _, _, 0 => none
  | page, acc, fuel + 1 =>
    match fetch dateFrom page with
    | .error e => some (.error e)
    | .ok data =>
      let acc := acc ++ data.items
      if page ≥ data.pages - 1 then some (.ok acc)
      else fetchAllPages fetch dateFrom (page + 1) acc fuel

/-- Model of `client.sync_negotiation_history` (lines 195-223).  `startNow` is
the wall-clock instant the run begins and `endNow` the instant of the
final `set_last_sync_timestamp(profile, datetime.now())` call; the code
reads the clock only there, so the result depends only on `endNow`.  On
a page error the run returns with the state untouched; on success the
accumulated items are upserted in one batch and the watermark is set. -/
def sync_negotiation_history
    (fetch : Option Time → Nat → Except Unit NegotiationsPage)
    (profileName : String) (db : SyncDb) (startNow endNow : Time)
    (fuel : Nat) : Option SyncDb :=
  let _ := startNow
  let lastSync := get_last_sync_timestamp db profileName
  match fetchAllPages fetch lastSync 0 [] fuel with
  | none => none
  | some (.error _) => some db
  | some (.ok allItems) =>
    let db1 :=
      if allItems.isEmpty then db
      else { db with history := upsert_negotiation_history allItems profileName db.history }
    some { db1 with
           appState := set_last_sync_timestamp db1.appState profileName endNow }

/-! ## Vacancy detail cache (`database.get_vacancy_from_cache`) -/

/-- One row of the `vacancy_cache` table (`vacancy_id` is its primary
key; `json_data` is the serialized payload written by
`save_vacancy_to_cache`, always a non-empty `json.dumps` string). -/
structure CacheEntry where
  vacancyId : String
  jsonData : String
  cachedAt : Time
  deriving Repr, DecidableEq

/-- Seconds in `timedelta(days=7)`. -/
def SEVEN_DAYS : Time := 7 * 86400

/-- Model of `database.get_vacancy_from_cache` (lines 319-337): select the row
with the given id and `cached_at >= now - 7 days`; the Python
`if result:` truthiness check drops an empty payload string. -/
def get_vacancy_from_cache (cache : List CacheEntry) (vacancyId : String)
    (now : Time) : Option String :=
  let sevenDaysAgo := now - SEVEN_DAYS
  match cache.find? (fun e =>
      e.vacancyId == vacancyId && decide (sevenDaysAgo ≤ e.cachedAt)) with
  | some e => if e.jsonData = "" then none else some e.jsonData
  | none => none

/-! ## Credential store (`database.save_or_update_profile`,
`database.load_profile`) -/

/-- A Python dict with string keys and values, as passed around for
`user_info` and API payloads. -/
abbrev StrDict := List (String × String)

/-- Python `d[k]` / `d.get(k)`: the value of the first binding of `k`. -/
def dictGet? (d : StrDict) (k : String) : Option String :=
  (d.find? (fun p => p.1 == k)).map (fun p => p.2)

/-- Python `d.get(k, dflt)`. -/
def dictGetD (d : StrDict) (k dflt : String) : String :=
  (dictGet? d k).getD dflt

/-- A decoded OAuth token response: `access_token`, `refresh_token` and
the optional `expires_in` field. -/
structure TokenData where
  accessToken : String
  refreshToken : String
  expiresIn : Option Int
  deriving Repr, DecidableEq

/-- One row of the `profiles` table (`profile_name` is the primary key,
`hh_user_id` is UNIQUE). -/
structure ProfileRow where
  profileName : String
  hhUserId : String
  email : String
  accessToken : String
  refreshToken : String
  expiresAt : Time
  deriving Repr, DecidableEq

/-- The scalar columns of a `profile_configs` row (everything
`get_default_config` returns except the three per-row keyword/role
lists, which live in their own tables). -/
structure ConfigMain where
  workFormat : String
  areaId : String
  searchField : String
  period : String
  coverLetter : String
  theme : String
  skipAppliedInSameCompany : Bool
  deduplicateByNameAndCompany : Bool
  strikethroughAppliedVac : Bool
  strikethroughAppliedVacName : Bool
  vacancyLeftPanePercent : Int
  vacancyColIndexWidth : Int
  vacancyColTitleWidth : Int
  vacancyColCompanyWidth : Int
  vacancyColPreviousWidth : Int
  historyLeftPanePercent : Int
  historyColIndexWidth : Int
  historyColTitleWidth : Int
  historyColCompanyWidth : Int
  historyColStatusWidth : Int
  historyColSentWidth : Int
  historyColDateWidth : Int
  deriving Repr, DecidableEq

/-- The scalar part of `database.get_default_config` (lines 66-114). -/
def defaultConfigMain : ConfigMain :=
  { workFormat := "REMOTE"
    areaId := "113"
    searchField := "name"
    period := "3"
    coverLetter := "Здравствуйте!\n\nОписание вашей вакансии показалось мне интересным, хотелось бы подробнее узнать о требованиях к кандидату и о предстоящих задачах.\n\nКоротко о себе:\n...\n\nБуду рад обсудить, как мой опыт может быть для вас полезен.\n\nС уважением,\nИмя Фамилия\n+7 (000) 000-00-00 | Tg: @nickname | e-mail@gmail.com"
    theme := "hhcli-base"
    skipAppliedInSameCompany := false
    deduplicateByNameAndCompany := true
    strikethroughAppliedVac := true
    strikethroughAppliedVacName := true
    vacancyLeftPanePercent := 60
    vacancyColIndexWidth := 6
    vacancyColTitleWidth := 46
    vacancyColCompanyWidth := 28
    vacancyColPreviousWidth := 20
    historyLeftPanePercent := 55
    historyColIndexWidth := 6
    historyColTitleWidth := 38
    historyColCompanyWidth := 24
    historyColStatusWidth := 16
    historyColSentWidth := 4
    historyColDateWidth := 16 }

/-- The `text_include` list of `get_default_config`. -/
def defaultPositiveKeywords : List String :=
  ["Python developer", "Backend developer"]

/-- The `negative` list of `get_default_config`. -/
def defaultNegativeKeywords : List String :=
  ["старший", "senior", "ведущий", "Middle", "ETL", "BI", "ML",
   "Data Scientist", "CV", "NLP", "Unity", "Unreal", "C#", "C++"]

/-- The `role_ids_config` list of `get_default_config`. -/
def defaultRoleIds : List String :=
  ["96", "104", "107", "112", "113", "114", "116", "121", "124",
   "125", "126"]

/-- The tables written by `save_or_update_profile`: `profiles`,
`profile_configs`, `config_positive_keywords`,
`config_negative_keywords` and `config_professional_roles` (the last
four keyed by profile name). -/
structure ProfilesDb where
  profiles : List ProfileRow
  profileConfigs : List (String × ConfigMain)
  posKeywords : List (String × String)
  negKeywords : List (String × String)
  roles : List (String × String)
  deriving Repr, DecidableEq

/-- Failures of the persistence layer: a missing dict key
(Python `KeyError`, also standing in for the `TypeError` of subscripting
`None`) or a violated SQL uniqueness constraint. -/
inductive DbError where
  | keyError
  | integrityError
  deriving Repr, DecidableEq

/-- Model of `database.save_or_update_profile` (lines 970-1016): look up the
profiles row by `user_info['id']`; if one exists, update it in place
(tokens, email, and the profile name); otherwise insert it together
with the default search configuration, keyword lists and role list.
The UNIQUE/`PRIMARY KEY` constraint on `profile_name` makes the
transaction fail when the written name collides with a different row. -/
def save_or_update_profile (db : ProfilesDb) (profileName : String)
    (userInfo : StrDict) (tokenData : TokenData) (expiresAt : Time) :
    Except DbError ProfilesDb :=
  match dictGet? userInfo "id" with
  | none => .error .keyError
  | some uid =>
    let email := dictGetD userInfo "email" ""
    if db.profiles.any (fun r => r.hhUserId == uid) then
      if db.profiles.any (fun r => r.profileName == profileName && r.hhUserId != uid) then
        .error .integrityError
      else
        .ok { db with
              profiles := db.profiles.map (fun r =>
                if r.hhUserId == uid then
                  { profileName := profileName
                    hhUserId := uid
                    email := email
                    accessToken := tokenData.accessToken
                    refreshToken := tokenData.refreshToken
                    expiresAt := expiresAt }
                else r) }
    else
      if db.profiles.any (fun r => r.profileName == profileName) then
        .error .integrityError
      else
        .ok { db with
              profiles := db.profiles ++
                [{ profileName := profileName
                   hhUserId := uid
                   email := email
                   accessToken := tokenData.accessToken
                   refreshToken := tokenData.refreshToken
                   expiresAt := expiresAt }]
              profileConfigs := db.profileConfigs ++ [(profileName, defaultConfigMain)]
              posKeywords := db.posKeywords ++
                defaultPositiveKeywords.map (fun kw => (profileName, kw))
              negKeywords := db.negKeywords ++
                defaultNegativeKeywords.map (fun kw => (profileName, kw))
              roles := db.roles ++
                defaultRoleIds.map (fun rid => (profileName, rid)) }

/-- Model of `database.load_profile` (lines 1018-1024). -/
def load_profile (db : ProfilesDb) (profileName : String) : Option ProfileRow :=
  db.profiles.find? (fun r => r.profileName == profileName)

/-- The dict `load_profile` hands back to Python callers
(`dict(result._mapping)`): its keys are the column names of the
`profiles` table — in particular `hh_user_id`, not `id`. -/
def profileRowToDict (r : ProfileRow) : StrDict :=
  [("profile_name", r.profileName),
   ("hh_user_id", r.hhUserId),
   ("email", r.email),
   ("access_token", r.accessToken),
   ("refresh_token", r.refreshToken),
   ("expires_at", toString r.expiresAt)]

/-! ## Token manager and request executor (`src/hhcli/client.py`) -/

/-- The mutable fields of `HHApiClient` that the token lifecycle
touches. -/
structure ClientState where
  profileName : String
  accessToken : Option String
  refreshToken : Option String
  tokenExpiresAt : Option Time
  deriving Repr, DecidableEq

/-- Model of `client.is_authenticated` (lines 41-42): a token is held and its
expiry is strictly in the future. -/
def is_authenticated (c : ClientState) (now : Time) : Bool :=
  c.accessToken.isSome &&
    (match c.tokenExpiresAt with
     | some e => decide (now < e)
     | none => false)

/-- Errors surfaced by the token manager. -/
inductive ClientError where
  | noRefreshToken
  | refreshHttpError
  | dbError (e : DbError)
  deriving Repr, DecidableEq

/-- Model of `client._save_token` (lines 44-50): recompute the expiry as
`now + expires_in` (3600 when `expires_in` is absent), persist through
`save_or_update_profile`, then overwrite the in-memory token fields. -/
def save_token (c : ClientState) (db : ProfilesDb) (tokenData : TokenData)
    (userInfo : StrDict) (now : Time) :
    Except ClientError (ClientState × ProfilesDb) :=
  let expiresIn := tokenData.expiresIn.getD 3600
  let expiresAt := now + expiresIn
  match save_or_update_profile db c.profileName userInfo tokenData expiresAt with
  | .error e => .error (.dbError e)
  | .ok db1 =>
    .ok ({ c with
           accessToken := some tokenData.accessToken
           refreshToken := some tokenData.refreshToken
           tokenExpiresAt := some expiresAt }, db1)

/-- Model of `client._refresh_token` (lines 52-68): fail when no refresh token is
held; otherwise POST the refresh grant (`response` models its outcome),
reload the stored profile row as `user_info`, and save.  A missing
profile row makes the `user_info['id']` subscript fail just like the
row dict does, so both collapse to the same key-error path. -/
def refresh_token_exchange (c : ClientState) (db : ProfilesDb)
    (response : Option TokenData) (now : Time) :
    Except ClientError (ClientState × ProfilesDb) :=
  match c.refreshToken with
  | none => .error .noRefreshToken
  | some _ =>
    match response with
    | none => .error .refreshHttpError
    | some tokenData =>
      let userInfo :=
        match load_profile db c.profileName with
        | some row => profileRowToDict row
        | none => []
      save_token c db tokenData userInfo now

/-- The environment one `_request` call runs against: the status code
of each successive HTTP attempt against the endpoint and whether each
successive `_refresh_token` call succeeds. -/
structure RequestEnv where
  attemptStatus : Nat → Nat
  refreshOk : Nat → Bool

/-- Whether `requests.Response.raise_for_status` raises: 4xx and 5xx. -/
def isHttpErrorStatus (s : Nat) : Bool :=
  decide (400 ≤ s) && decide (s < 600)

/-- How one `_request` call ends. -/
inductive ReqOutcome where
  | ok (status : Nat)
  | connectionError
  | httpError (status : Nat)
  deriving Repr, DecidableEq

/-- The observable trace of one `_request` call: its outcome, how many
HTTP attempts hit the endpoint, and how many times `_refresh_token` was
invoked. -/
structure ReqTrace where
  outcome : ReqOutcome
  attempts : Nat
  refreshes : Nat
  deriving Repr, DecidableEq

/-- Model of `client._request` (lines 103-130): refresh first when the local
token is invalid (failure surfaces `ConnectionError` before any
attempt); then one attempt; on 401 exactly one refresh-and-retry whose
own failure — including a second 401 — surfaces `ConnectionError`; any
other 4xx/5xx propagates as the `HTTPError` itself. -/
def runRequest (env : RequestEnv) (authValid : Bool) : ReqTrace :=
  let preRefreshes := if authValid then 0 else 1
  if !authValid && !env.refreshOk 0 then
    { outcome := .connectionError, attempts := 0, refreshes := 1 }
  else
    let s0 := env.attemptStatus 0
    if !isHttpErrorStatus s0 then
      { outcome := .ok s0, attempts := 1, refreshes := preRefreshes }
    else if s0 == 401 then
      if !env.refreshOk preRefreshes then
        { outcome := .connectionError, attempts := 1, refreshes := preRefreshes + 1 }
      else
        let s1 := env.attemptStatus 1
        if !isHttpErrorStatus s1 then
          { outcome := .ok s1, attempts := 2, refreshes := preRefreshes + 1 }
        else
          { outcome := .connectionError, attempts := 2, refreshes := preRefreshes + 1 }
    else
      { outcome := .httpError s0, attempts := 1, refreshes := preRefreshes }

/-! ## State-transition wrappers used by the invariants -/

/-- The arguments of one `save_or_update_profile` call. -/
structure SaveOp where
  name : String
  userInfo : StrDict
  tokenData : TokenData
  expiresAt : Time

/-- Run one save against the store; a failed transaction (raised
`KeyError` or constraint violation) rolls back, leaving the state
unchanged. -/
def applySave (db : ProfilesDb) (op : SaveOp) : ProfilesDb :=
  match save_or_update_profile db op.name op.userInfo op.tokenData op.expiresAt with
  | .ok db1 => db1
  | .error _ => db

/-- Count of `SELECT count(*) FROM profiles WHERE hh_user_id = uid`. -/
def countByUid (db : ProfilesDb) (uid : String) : Nat :=
  (db.profiles.filter (fun r => r.hhUserId == uid)).length

/-- The store as `init_db` creates it: no rows anywhere. -/
def emptyProfilesDb : ProfilesDb :=
  { profiles := [], profileConfigs := [], posKeywords := [],
    negKeywords := [], roles := [] }

/-! ## Concrete scenario inputs -/

/-- A raw negotiation item carrying the given vacancy id, resume id,
state id and update instant. -/
def mkNegItem (vid rid status : String) (t : Time) : NegotiationItem :=
  { vacancy := some { id := some vid, name := some "T1", employer := some { name := some "E1" } }
    resume := some { id := some rid, title := some "R" }
    state := some { id := some status, code := none, name := none }
    status := none
    updatedAt := t }

/-- Scenario item delivered to page 0 of the failing sync. -/
def syncItemA : NegotiationItem := mkNegItem "vA" "rA" "applied" 100

/-- Scenario item delivered to page 1 of the failing sync. -/
def syncItemB : NegotiationItem := mkNegItem "vB" "rB" "applied" 110

/-- A paginated fetch reporting 5 pages that succeeds on pages 0 and 1
and fails with an HTTP error on page 2 (page 3 in 1-based counting). -/
def fetchFailPage3 : Option Time → Nat → Except Unit NegotiationsPage :=
  fun _ page =>
    if page = 0 then .ok { items := [syncItemA], pages := 5 }
    else if page = 1 then .ok { items := [syncItemB], pages := 5 }
    else .error ()

/-- A single-page fetch that always succeeds. -/
def fetchOnePage : Option Time → Nat → Except Unit NegotiationsPage :=
  fun _ _ => .ok { items := [syncItemA], pages := 1 }

/-- Sync state before the scenario runs: empty history, watermark 50. -/
def syncDb0 : SyncDb :=
  { history := [], appState := [("last_negotiation_sync_p", 50)] }

/-- The concrete cache row for the C9 witness: captured at instant 0. -/
def cacheC9 : List CacheEntry :=
  [{ vacancyId := "v1", jsonData := "x", cachedAt := 0 }]

/-- A client state holding a token that expires at instant 10. -/
def clC7 : ClientState :=
  { profileName := "p", accessToken := some "a",
    refreshToken := some "r", tokenExpiresAt := some 10 }

/-- An environment whose every attempt is answered 401 and whose
refreshes all succeed. -/
def envAll401 : RequestEnv :=
  { attemptStatus := fun _ => 401, refreshOk := fun _ => true }

/-- An environment whose every attempt is answered 404. -/
def envAll404 : RequestEnv :=
  { attemptStatus := fun _ => 404, refreshOk := fun _ => true }

/-- The stored profile row used by the C5 failing input. -/
def rowC5 : ProfileRow :=
  { profileName := "p", hhUserId := "u1", email := "e@x",
    accessToken := "a1", refreshToken := "r1", expiresAt := 1000 }

/-- The credential store holding only `rowC5`. -/
def dbC5 : ProfilesDb :=
  { profiles := [rowC5], profileConfigs := [], posKeywords := [],
    negKeywords := [], roles := [] }

/-- The in-memory client state after loading profile "p". -/
def clC5 : ClientState :=
  { profileName := "p", accessToken := some "a1",
    refreshToken := some "r1", tokenExpiresAt := some 1000 }

/-- A successful refresh-grant token response. -/
def tdC5 : TokenData :=
  { accessToken := "a2", refreshToken := "r2", expiresIn := some 600 }

/-- A save operation re-authorizing remote account "u9" as "n1". -/
def opW1 : SaveOp :=
  { name := "n1", userInfo := [("id", "u9"), ("email", "a")],
    tokenData := tdC5, expiresAt := 5 }

/-- A save operation re-authorizing remote account "u9" as "n2". -/
def opW2 : SaveOp :=
  { name := "n2", userInfo := [("id", "u9"), ("email", "b")],
    tokenData := tdC5, expiresAt := 6 }

/-! ## Theorems -/

/-- The branch structure of `_status_was_delivered` collapses to:
delivered-prefix match and not in the failed vocabulary. -/
lemma statusWasDeliveredChar (code : String) :
    (if code = "" then false
     else if FAILED_STATUS_CODES.contains code then false
     else if DELIVERED_STATUS_CODES.contains code then true
     else delivered_status_prefixes.any (fun p => pyStartsWith code p))
    = (delivered_status_prefixes.any (fun p => pyStartsWith code p)
       && !(FAILED_STATUS_CODES.contains code)) := by
  by_cases h0 : code = ""
  · subst h0; decide
  · rw [if_neg h0]
    cases hf : FAILED_STATUS_CODES.contains code with
    | true => simp [hf]
    | false =>
      simp only [Bool.not_false, Bool.and_true, Bool.false_eq_true, if_false]
      cases hd : DELIVERED_STATUS_CODES.contains code with
      | false => simp
      | true =>
        simp only [if_true]
        have hmem : code ∈ DELIVERED_STATUS_CODES := List.mem_of_elem_eq_true hd
        simp only [DELIVERED_STATUS_CODES, List.mem_cons, List.mem_singleton,
          List.not_mem_nil, or_false] at hmem
        rcases hmem with h | h | h | h | h <;> subst h <;> decide

/-- Claim C6: `IsDelivered` first normalizes (trim, lower-case) and is
true exactly when the normalized string matches the delivered
vocabulary by prefix and is not in the failed vocabulary (failed takes
precedence); in particular it accepts "applied" and rejects
"  SENIOR_REJECTED_FAILED  " and the empty string. -/
theorem spec_C6_is_delivered :
    (∀ s : String,
      status_was_delivered (some s) =
        (delivered_status_prefixes.any
            (fun p => pyStartsWith (normalize_status (some s)) p)
          && !(FAILED_STATUS_CODES.contains (normalize_status (some s)))))
    ∧ status_was_delivered (some "applied") = true
    ∧ status_was_delivered (some "  SENIOR_REJECTED_FAILED  ") = false
    ∧ status_was_delivered (some "") = false := by
  refine ⟨fun s => ?_, by decide, by decide, by decide⟩
  unfold status_was_delivered
  exact statusWasDeliveredChar (normalize_status (some s))

/-- Claim C7: `is_authenticated` is true iff an access token is present
and the stored expiry is strictly in the future, and false exactly when
the token is absent or the expiry is `<=` now.  The hypothesis is the
state invariant of `HHApiClient`: whenever an access token is held, an
expiry instant is held with it (both are always assigned together). -/
theorem spec_C7_is_valid (c : ClientState) (now : Time)
    (h : c.accessToken.isSome = true → c.tokenExpiresAt.isSome = true) :
    (is_authenticated c now = true ↔
      (c.accessToken.isSome = true ∧ ∃ e, c.tokenExpiresAt = some e ∧ now < e))
    ∧ (is_authenticated c now = false ↔
      (c.accessToken = none ∨ ∃ e, c.tokenExpiresAt = some e ∧ e ≤ now)) := by
  cases hA : c.accessToken with
  | none => simp [is_authenticated, hA]
  | some t =>
    have hE : c.tokenExpiresAt.isSome = true := h (by rw [hA]; rfl)
    cases hT : c.tokenExpiresAt with
    | none => rw [hT] at hE; simp at hE
    | some e =>
      constructor
      · simp only [is_authenticated, hA, hT, Option.isSome_some, Bool.true_and,
          decide_eq_true_eq, Option.some.injEq]
        constructor
        · intro hlt; exact ⟨trivial, e, rfl, hlt⟩
        · rintro ⟨-, e', he', hlt⟩; subst he'; exact hlt
      · simp only [is_authenticated, hA, hT, Option.isSome_some, Bool.true_and,
          decide_eq_false_iff_not, not_lt, Option.some.injEq]
        constructor
        · intro hle; exact Or.inr ⟨e, rfl, hle⟩
        · rintro (h' | ⟨e', he', hle⟩)
          · exact absurd h' (by simp)
          · subst he'; exact hle

/-- Claim C9: a detail-cache read hits iff an entry for the key exists
whose age `now - captured_at` is at most the 7-day TTL.  The hypothesis
states that all stored payloads are non-empty, which
`save_vacancy_to_cache` guarantees (it stores `json.dumps` output). -/
theorem spec_C9_cache_ttl (cache : List CacheEntry) (vid : String) (now : Time)
    (h : cache.all (fun e => !(e.jsonData == "")) = true) :
    (get_vacancy_from_cache cache vid now).isSome = true ↔
      ∃ e ∈ cache, e.vacancyId = vid ∧ now - e.cachedAt ≤ SEVEN_DAYS := by
  cases hf : cache.find? (fun e =>
      e.vacancyId == vid && decide (now - SEVEN_DAYS ≤ e.cachedAt)) with
  | none =>
    simp only [get_vacancy_from_cache, hf, Option.isSome_none,
      Bool.false_eq_true, false_iff, not_exists]
    rintro e ⟨hmem, hkey, hage⟩
    have := List.find?_eq_none.mp hf e hmem
    simp only [Bool.and_eq_true, beq_iff_eq, decide_eq_true_eq, not_and] at this
    have hbad := this hkey
    exact hbad (by linarith)
  | some e =>
    have hmem : e ∈ cache := List.mem_of_find?_eq_some hf
    have hpred := List.find?_some hf
    simp only [Bool.and_eq_true, beq_iff_eq, decide_eq_true_eq] at hpred
    have hjson : ¬(e.jsonData = "") := by
      have := List.all_eq_true.mp h e hmem
      simpa using this
    simp only [get_vacancy_from_cache, hf, if_neg hjson, Option.isSome_some,
      true_iff]
    refine ⟨e, hmem, hpred.1, ?_⟩
    have hage := hpred.2
    linarith

/-- Claim C3: with a locally valid token, a first attempt answered 401
triggers exactly one refresh and exactly one retry; a 401 on the retry
surfaces the auth `ConnectionError` with no third attempt; any other
4xx/5xx on the first attempt propagates as the HTTP error with no retry
and no refresh. -/
theorem spec_C3_retry_policy (env : RequestEnv) :
    (env.attemptStatus 0 = 401 → env.refreshOk 0 = true →
      (runRequest env true).refreshes = 1 ∧ (runRequest env true).attempts = 2)
    ∧ (env.attemptStatus 0 = 401 → env.refreshOk 0 = true →
        env.attemptStatus 1 = 401 →
      (runRequest env true).outcome = .connectionError ∧
        (runRequest env true).attempts = 2)
    ∧ (∀ s : Nat, env.attemptStatus 0 = s → isHttpErrorStatus s = true →
        s ≠ 401 →
      (runRequest env true).outcome = .httpError s ∧
        (runRequest env true).attempts = 1 ∧
        (runRequest env true).refreshes = 0) := by
  have e401 : isHttpErrorStatus 401 = true := by decide
  refine ⟨fun h1 h2 => ?_, fun h1 h2 h3 => ?_, fun s h1 h2 h3 => ?_⟩
  · simp [runRequest, h1, h2, e401]
    split <;> simp
  · simp [runRequest, h1, h2, h3, e401]
  · have hne : (s == 401) = false := by simpa using h3
    simp [runRequest, h1, h2, hne]

/-- Claim C5 (code bug): with a refresh token held and a successful
token exchange, `_refresh_token` fails with a `KeyError` instead of
persisting — it passes the stored profile row (whose key is
`hh_user_id`) as `user_info` into `save_or_update_profile`, which reads
`user_info['id']`.  The no-refresh-token branch does surface the auth
error the claim describes. -/
theorem spec_C5_refresh_persist_bug :
    refresh_token_exchange clC5 dbC5 (some tdC5) 2000 =
      .error (.dbError .keyError)
    ∧ refresh_token_exchange { clC5 with refreshToken := none } dbC5
        (some tdC5) 2000 = .error .noRefreshToken := by
  exact ⟨rfl, rfl⟩

/-- Witness for C7: a client holding a token that expires at instant 10
is authenticated at instant 5. -/
theorem spec_C7_witness : is_authenticated clC7 5 = true :=
  ((spec_C7_is_valid clC7 5 (fun _ => rfl)).1).mpr ⟨rfl, 10, rfl, by decide⟩

/-- Witness for C9: a detail entry captured at instant 0 is served
6 days later. -/
theorem spec_C9_witness :
    (get_vacancy_from_cache cacheC9 "v1" (6 * 86400)).isSome = true :=
  (spec_C9_cache_ttl cacheC9 "v1" (6 * 86400) (by decide)).mpr
    ⟨{ vacancyId := "v1", jsonData := "x", cachedAt := 0 }, by decide, rfl, by decide⟩

/-- Witness for C3: two consecutive 401s end in the auth error after
exactly two attempts, and a 404 propagates after one attempt with no
refresh. -/
theorem spec_C3_witness :
    ((runRequest envAll401 true).outcome = .connectionError ∧
      (runRequest envAll401 true).attempts = 2)
    ∧ ((runRequest envAll404 true).outcome = .httpError 404 ∧
      (runRequest envAll404 true).attempts = 1 ∧
      (runRequest envAll404 true).refreshes = 0) :=
  ⟨(spec_C3_retry_policy envAll401).2.1 rfl rfl rfl,
   (spec_C3_retry_policy envAll404).2.2 404 rfl (by decide) (by decide)⟩

/-- Counterexample for C1: upserting "applied" then "rejected" (later
timestamp) for the same (vacancy, resume) key leaves the last status
"rejected" as claimed, but `was_delivered` is `false`, not `true` — the
upsert overwrote it — and the classifier reports no delivered vacancy. -/
theorem spec_C1_counterexample :
    ((upsert_negotiation_history [mkNegItem "v1" "r1" "rejected" 200] "p"
        (upsert_negotiation_history [mkNegItem "v1" "r1" "applied" 100] "p" [])).map
      (fun r => (r.status, r.wasDelivered))) = [(some "rejected", false)]
    ∧ ¬ ((upsert_negotiation_history [mkNegItem "v1" "r1" "rejected" 200] "p"
        (upsert_negotiation_history [mkNegItem "v1" "r1" "applied" 100] "p" [])).all
      (fun r => r.wasDelivered) = true)
    ∧ (collect_delivered (upsert_negotiation_history
        [mkNegItem "v1" "r1" "rejected" 200] "p"
        (upsert_negotiation_history [mkNegItem "v1" "r1" "applied" 100] "p" []))).1
      = [] := by
  decide

/-- Claim C1 as amended: for every (vacancy id, resume id) key, upserting
a record with status "applied" and then one with status "rejected" on a
later timestamp yields last status "rejected" with `was_delivered`
`false` — the sync upsert overwrites the flag from the incoming record,
so delivered is not sticky at the store. -/
theorem spec_C1_upsert_overwrites_delivered (vid rid : String) (t1 t2 : Time)
    (h : vid ≠ "") :
    (upsert_negotiation_history [mkNegItem vid rid "rejected" t2] "p"
        (upsert_negotiation_history [mkNegItem vid rid "applied" t1] "p" [])).map
      (fun r => (r.status, r.wasDelivered, r.appliedAt))
    = [(some "rejected", false, t2)] := by
  simp [upsert_negotiation_history, upsertNegotiationItem, mkNegItem, strTruthy, h,
    canonicalStatus, pyOrStr]
  exact ⟨by decide, by decide⟩

/-- Witness for the amended C1 at the concrete key ("v1", "r1"). -/
theorem spec_C1_witness :
    (upsert_negotiation_history [mkNegItem "v1" "r1" "rejected" 200] "p"
        (upsert_negotiation_history [mkNegItem "v1" "r1" "applied" 100] "p" [])).map
      (fun r => (r.status, r.wasDelivered, r.appliedAt))
    = [(some "rejected", false, 200)] :=
  spec_C1_upsert_overwrites_delivered "v1" "r1" 100 200 (by decide)

/-- Counterexample for C2: a sync whose fetch reports 5 pages, serves
pages 1-2 (items for vacancies "vA"/"vB") and fails on page 3, leaves
the whole state unchanged — in particular the records of the already
fetched pages are NOT upserted (the claim says they are). -/
theorem spec_C2_counterexample :
    sync_negotiation_history fetchFailPage3 "p" syncDb0 90 100 10 = some syncDb0
    ∧ ¬ ((sync_negotiation_history fetchFailPage3 "p" syncDb0 90 100 10).map
        (fun d => d.history.any (fun r => r.vacancyId == "vA")) = some true) := by
  decide

/-- Claim C2 as amended: a sync run whose page-walk fails leaves the
History Store untouched (no page's records are upserted, because the
implementation buffers every page and upserts only after a complete
walk), does not advance the watermark, and so the next run re-fetches
from the original watermark. -/
theorem spec_C2_failed_sync_preserves_state
    (fetch : Option Time → Nat → Except Unit NegotiationsPage)
    (profileName : String) (db : SyncDb) (startNow endNow : Time) (fuel : Nat)
    (h : fetchAllPages fetch (get_last_sync_timestamp db profileName) 0 [] fuel
      = some (.error ())) :
    sync_negotiation_history fetch profileName db startNow endNow fuel = some db := by
  simp [sync_negotiation_history, h]

/-- Witness for the amended C2 at the concrete page-3 failure. -/
theorem spec_C2_witness :
    sync_negotiation_history fetchFailPage3 "p" syncDb0 90 100 10 = some syncDb0 :=
  spec_C2_failed_sync_preserves_state fetchFailPage3 "p" syncDb0 90 100 10 rfl

/-- Reading an app-state key right after upserting it yields the new
value. -/
lemma find_upsertAppState (k : String) (v : Time) :
    ∀ st : List (String × Time),
      (((upsertAppState st k v).find? (fun p => p.1 == k)).map (fun p => p.2))
        = some v := by
  intro st
  induction st with
  | nil => simp [upsertAppState]
  | cons hd tl ih =>
    by_cases hh : (hd.1 == k) = true
    · have hk : hd.1 = k := eq_of_beq hh
      have hmap : upsertAppState (hd :: tl) k v
          = (hd.1, v) :: tl.map (fun p => if p.1 == k then (p.1, v) else p) := by
        simp [upsertAppState, List.any_cons, hh, hk]
      have hpos : List.find? (fun p => p.1 == k)
          ((hd.1, v) :: tl.map (fun p => if p.1 == k then (p.1, v) else p))
          = some (hd.1, v) := List.find?_cons_of_pos _ hh
      rw [hmap, hpos]
      rfl
    · have hf : (hd.1 == k) = false := by simpa using hh
      have hk' : ¬ hd.1 = k := ne_of_beq_false hf
      by_cases ht : tl.any (fun p => p.1 == k) = true
      · have hmap : upsertAppState (hd :: tl) k v
            = hd :: tl.map (fun p => if p.1 == k then (p.1, v) else p) := by
          simp [upsertAppState, List.any_cons, hf, ht, hk']
        have hneg : List.find? (fun p => p.1 == k)
            (hd :: tl.map (fun p => if p.1 == k then (p.1, v) else p))
            = List.find? (fun p => p.1 == k)
              (tl.map (fun p => if p.1 == k then (p.1, v) else p)) :=
          List.find?_cons_of_neg _ hh
        have htl : tl.map (fun p => if p.1 == k then (p.1, v) else p)
            = upsertAppState tl k v := by
          simp [upsertAppState, ht]
        rw [hmap, hneg, htl, ih]
      · have hmap : upsertAppState (hd :: tl) k v = hd :: (tl ++ [(k, v)]) := by
          simp [upsertAppState, List.any_cons, hf, ht, hk']
        have hneg : List.find? (fun p => p.1 == k) (hd :: (tl ++ [(k, v)]))
            = List.find? (fun p => p.1 == k) (tl ++ [(k, v)]) :=
          List.find?_cons_of_neg _ hh
        have htl : tl ++ [(k, v)] = upsertAppState tl k v := by
          simp [upsertAppState, ht]
        rw [hmap, hneg, htl, ih]

/-- Counterexample for C4: a sync run started at instant 0 whose walk
succeeds and whose final clock read happens at instant 10 stores
watermark 10, not the start instant 0 the claim requires. -/
theorem spec_C4_counterexample :
    (sync_negotiation_history fetchOnePage "p" syncDb0 0 10 10).map
      (fun d => get_last_sync_timestamp d "p") = some (some 10)
    ∧ ¬ ((sync_negotiation_history fetchOnePage "p" syncDb0 0 10 10).map
      (fun d => get_last_sync_timestamp d "p") = some (some 0)) := by
  decide

/-- Claim C4 as amended: a sync run whose page-walk completes without
error advances the watermark to the clock instant read when
`set_last_sync_timestamp` executes at the end of the run — the
completion instant — independently of the instant the run started. -/
theorem spec_C4_watermark_completion
    (fetch : Option Time → Nat → Except Unit NegotiationsPage)
    (profileName : String) (db : SyncDb) (startNow endNow : Time) (fuel : Nat)
    (items : List NegotiationItem)
    (h : fetchAllPages fetch (get_last_sync_timestamp db profileName) 0 [] fuel
      = some (.ok items)) :
    (sync_negotiation_history fetch profileName db startNow endNow fuel).map
      (fun d => get_last_sync_timestamp d profileName) = some (some endNow) := by
  simp only [sync_negotiation_history, h, Option.map_some]
  split <;>
    simp [get_last_sync_timestamp, set_last_sync_timestamp, find_upsertAppState]

/-- Witness for the amended C4: with a successful one-page walk and the
final clock read at instant 77, the stored watermark is 77. -/
theorem spec_C4_witness :
    (sync_negotiation_history fetchOnePage "p" syncDb0 5 77 10).map
      (fun d => get_last_sync_timestamp d "p") = some (some 77) :=
  spec_C4_watermark_completion fetchOnePage "p" syncDb0 5 77 10 [syncItemA] rfl

/-- Mapping a row transformer that preserves `hh_user_id` pointwise
leaves the per-uid row count unchanged. -/
lemma filterLength_map_keyPreserving (uid : String) (f : ProfileRow → ProfileRow) :
    ∀ l : List ProfileRow, (∀ r ∈ l, (f r).hhUserId = r.hhUserId) →
      ((l.map f).filter (fun r => r.hhUserId == uid)).length =
        (l.filter (fun r => r.hhUserId == uid)).length := by
  intro l
  induction l with
  | nil => intro _; rfl
  | cons hd tl ih =>
    intro hf
    have hhd : (f hd).hhUserId = hd.hhUserId := hf hd (by simp)
    have htl : ∀ r ∈ tl, (f r).hhUserId = r.hhUserId :=
      fun r hr => hf r (by simp [hr])
    simp only [List.map_cons, List.filter_cons, hhd]
    split <;> simp [ih htl]

/-- One successful `save_or_update_profile` keeps every per-uid row
count at most 1. -/
lemma countByUid_save (db : ProfilesDb) (name : String) (ui : StrDict)
    (td : TokenData) (exp : Time) (db1 : ProfilesDb)
    (hok : save_or_update_profile db name ui td exp = .ok db1) (uid : String)
    (hle : countByUid db uid ≤ 1) : countByUid db1 uid ≤ 1 := by
  unfold save_or_update_profile at hok
  cases hid : dictGet? ui "id" with
  | none => rw [hid] at hok; cases hok
  | some uid0 =>
    rw [hid] at hok
    dsimp only at hok
    by_cases hex : db.profiles.any (fun r => r.hhUserId == uid0) = true
    · rw [if_pos hex] at hok
      by_cases hcol : db.profiles.any
          (fun r => r.profileName == name && r.hhUserId != uid0) = true
      · rw [if_pos hcol] at hok; cases hok
      · rw [if_neg hcol] at hok
        simp only [Except.ok.injEq] at hok
        subst hok
        unfold countByUid
        rw [filterLength_map_keyPreserving]
        · exact hle
        · intro r _
          by_cases hr : (r.hhUserId == uid0) = true
          · simp only [hr, if_true]
            exact (eq_of_beq hr).symm
          · simp only [hr, Bool.false_eq_true, if_false]
    · rw [if_neg hex] at hok
      by_cases hcol : db.profiles.any (fun r => r.profileName == name) = true
      · rw [if_pos hcol] at hok; cases hok
      · rw [if_neg hcol] at hok
        simp only [Except.ok.injEq] at hok
        subst hok
        unfold countByUid
        simp only [List.filter_append, List.length_append]
        by_cases hu : (uid0 == uid) = true
        · have huid : uid0 = uid := eq_of_beq hu
          subst huid
          have hall : ∀ x ∈ db.profiles, ¬ x.hhUserId = uid0 := by simpa using hex
          have hzero : db.profiles.filter (fun r => r.hhUserId == uid0) = [] := by
            rw [List.filter_eq_nil_iff]
            intro r hr
            simpa using hall r hr
          rw [hzero]
          simp
        · have hone : (List.filter (fun r => r.hhUserId == uid)
              ([{ profileName := name, hhUserId := uid0,
                  email := dictGetD ui "email" "",
                  accessToken := td.accessToken,
                  refreshToken := td.refreshToken, expiresAt := exp }] :
                List ProfileRow)) = [] := by
            simp [List.filter, hu]
          rw [hone]
          simpa using hle

/-- Applying `applySave` preserves the per-uid row-count bound. -/
lemma countByUid_applySave (db : ProfilesDb) (op : SaveOp) (uid : String)
    (h : countByUid db uid ≤ 1) : countByUid (applySave db op) uid ≤ 1 := by
  unfold applySave
  cases hs : save_or_update_profile db op.name op.userInfo op.tokenData op.expiresAt with
  | error e => exact h
  | ok db1 =>
    exact countByUid_save db op.name op.userInfo op.tokenData op.expiresAt db1 hs uid h

/-- Folding any sequence of saves preserves the per-uid row-count
bound. -/
lemma countByUid_foldl (ops : List SaveOp) :
    ∀ db : ProfilesDb, (∀ uid, countByUid db uid ≤ 1) →
      ∀ uid, countByUid (ops.foldl applySave db) uid ≤ 1 := by
  induction ops with
  | nil => intro db h uid; exact h uid
  | cons op rest ih =>
    intro db h uid
    exact ih (applySave db op) (fun u => countByUid_applySave db op u (h u)) uid

/-- Claim C8: saving a profile whose remote user id already exists
updates the existing row in place (the profiles row count does not
grow), and starting from an empty store no sequence of saves ever
leaves more than one profiles row per remote user id. -/
theorem spec_C8_profile_uniqueness :
    (∀ (db : ProfilesDb) (name uid em : String) (td : TokenData) (exp : Time),
      db.profiles.any (fun r => r.hhUserId == uid) = true →
      (save_or_update_profile db name [("id", uid), ("email", em)] td exp).toOption.all
        (fun d => d.profiles.length == db.profiles.length) = true)
    ∧ (∀ (ops : List SaveOp) (uid : String),
        countByUid (ops.foldl applySave emptyProfilesDb) uid ≤ 1) := by
  constructor
  · intro db name uid em td exp hex
    have hid : dictGet? [("id", uid), ("email", em)] "id" = some uid := rfl
    simp only [save_or_update_profile, hid]
    rw [if_pos hex]
    by_cases hcol : db.profiles.any
        (fun r => r.profileName == name && r.hhUserId != uid) = true
    · rw [if_pos hcol]; rfl
    · rw [if_neg hcol]
      simp [Except.toOption, Option.all, List.length_map]
  · intro ops uid
    exact countByUid_foldl ops emptyProfilesDb
      (fun u => by simp [countByUid, emptyProfilesDb]) uid

/-- Witness for C8: re-authorizing the stored remote account "u1" under
a new local name keeps the row count, and two saves of remote account
"u9" leave at most one row for it. -/
theorem spec_C8_witness :
    (save_or_update_profile dbC5 "newname" [("id", "u1"), ("email", "e2")]
        tdC5 7).toOption.all
      (fun d => d.profiles.length == dbC5.profiles.length) = true
    ∧ countByUid ([opW1, opW2].foldl applySave emptyProfilesDb) "u9" ≤ 1 :=
  ⟨spec_C8_profile_uniqueness.1 dbC5 "newname" "u1" "e2" tdC5 7 (by decide),
   spec_C8_profile_uniqueness.2 [opW1, opW2] "u9"⟩

/-- Claim C10: when the remote user id already has a stored row, a save
writes only the profiles row — the search configuration, the positive
and negative keyword lists and the professional-role list are exactly
what they were before. -/
theorem spec_C10_update_frame (db : ProfilesDb) (name uid em : String)
    (td : TokenData) (exp : Time)
    (hex : db.profiles.any (fun r => r.hhUserId == uid) = true) :
    (save_or_update_profile db name [("id", uid), ("email", em)] td exp).toOption.all
      (fun d => decide (d.profileConfigs = db.profileConfigs ∧
        d.posKeywords = db.posKeywords ∧ d.negKeywords = db.negKeywords ∧
        d.roles = db.roles)) = true := by
  have hid : dictGet? [("id", uid), ("email", em)] "id" = some uid := rfl
  simp only [save_or_update_profile, hid]
  rw [if_pos hex]
  by_cases hcol : db.profiles.any
      (fun r => r.profileName == name && r.hhUserId != uid) = true
  · rw [if_pos hcol]; rfl
  · rw [if_neg hcol]
    simp [Except.toOption, Option.all]

/-- Witness for C10: updating stored remote account "u1" leaves the
configuration tables untouched. -/
theorem spec_C10_witness :
    (save_or_update_profile dbC5 "n2" [("id", "u1"), ("email", "e2")]
        tdC5 7).toOption.all
      (fun d => decide (d.profileConfigs = dbC5.profileConfigs ∧
        d.posKeywords = dbC5.posKeywords ∧ d.negKeywords = dbC5.negKeywords ∧
        d.roles = dbC5.roles)) = true :=
  spec_C10_update_frame dbC5 "n2" "u1" "e2" tdC5 7 (by decide)
